import Mathlib

/-!
gobal: a shallow embedding of the proxy data plane

This file embeds, in Lean, the data model and operations of the `gobal`
HTTP load balancer (Go, package `main`): the `Backend`/`Pool` lifecycle
(`pool.go`), the `Service` request path (`service.go`), the TCP/HTTP
connection wrappers (`conn.go`, `http.go`), and the listener
(`listener.go`).  Go pointers to connections are modelled as `Option` of a
state record or as numeric handles when only identity matters; Go channels
are modelled by `GoChan` below, distinguishing the nil (never-allocated)
channel from an allocated one, since the two behave differently under
send.  Go `len` on strings counts bytes, modelled by `String.utf8ByteSize`;
the byte-indexed slice `line[0:idx]` with `idx` the offset of the first
`'#'` coincides with taking the characters before the first `'#'`, which
is how it is written here.  String helpers of the Go standard library
(`strings.TrimSpace`, `strings.HasPrefix`, `strings.Split`, `path.Clean`,
`path.Join`) are re-implemented below on character lists so that every
definition evaluates inside the kernel.
-/

namespace Gobal

/-- A Go channel of element type `α`: either the nil channel (the zero
value of a channel-typed field that was never `make`d) or an allocated
channel with a capacity and a buffer.  Per the Go specification, a send
on a nil channel blocks forever. -/
inductive GoChan (α : Type) where
  | nil : GoChan α
  | alloc (cap : Nat) (buf : List α) : GoChan α
deriving DecidableEq, Repr

/-- Whether a send on this channel can ever complete: never on the nil
channel; on an allocated channel it completes as soon as buffer space or
a receiver is available. -/
def GoChan.sendMayComplete {α : Type} : GoChan α → Bool
  | .nil => false
  | .alloc _ _ => true

/-- Go `HttpBackendConnection` (http_backend.go): a connection to a backend
HTTP server.  `Conn` points at a `TcpConnection` and `Client` at an
`HttpConnection`; both are modelled as numeric handles since no claim
inspects their contents through this type. -/
structure HttpBackendConnection where
  Conn : Nat
  Client : Option Nat
deriving DecidableEq, Repr

/-- Go `Backend` (pool.go 25–33): a server we connect to.  `connecting` is
the `*HttpBackendConnection` field (nil ↦ `none`); `connectMutex` is not
represented explicitly — `Backend.Connect` below describes the effect of
a call with the mutex held. -/
structure Backend where
  Ipport : String
  connecting : Option HttpBackendConnection
  outstanding : Int
  generation : Int
deriving DecidableEq, Repr

/-- Go `Backend.Connect` (pool.go 57–71).  Under the mutex: if `connecting`
is non-nil, return at once.  Otherwise spawn a goroutine whose body locks
and unlocks the mutex and does nothing else — the dial
(`MakeHttpBackend(self)`, pool.go line 67) is commented out in the source
and `self.connecting` is never assigned anywhere in the program.  The
result is the backend after the call and its goroutine have run, paired
with the number of dial attempts the call initiated. -/
def Backend.Connect (b : Backend) : Backend × Nat :=
  if b.connecting.isSome then
    (b, 0)
  else
    (b, 0)

/-- Whether the first list of characters begins with the second. -/
def charsStartWith : List Char → List Char → Bool
  | _, [] => true
  | [], _ :: _ => false
  | a :: as, b :: bs => (a = b) && charsStartWith as bs

/-- Go `strings.HasPrefix`: whether `p` is a prefix of `s`. -/
def strStartsWith (s p : String) : Bool :=
  charsStartWith s.toList p.toList

/-- Split a character list at every occurrence of `sep`, keeping empty
pieces, as `strings.Split` does.  `cur` holds the characters of the
current piece in reverse. -/
def splitCharAux (sep : Char) (cur : List Char) : List Char → List String
  | [] => [String.mk cur.reverse]
  | c :: rest =>
    if c = sep then String.mk cur.reverse :: splitCharAux sep [] rest
    else splitCharAux sep (c :: cur) rest

/-- Go `strings.Split` with a single-character separator. -/
def splitChar (sep : Char) (s : String) : List String :=
  splitCharAux sep [] s.toList

/-- Go `unicode.IsSpace` restricted to the ASCII plane, where it recognises
`' '`, `'\t'`, `'\n'`, vertical tab, form feed and `'\r'`.  All inputs
handled by this program's `strings.TrimSpace` call sites are ASCII. -/
def goIsSpace (c : Char) : Bool :=
  c = ' ' || c = '\t' || c = '\n' || c = '\x0b' || c = '\x0c' || c = '\r'

/-- Go `strings.TrimSpace`: drop leading and trailing whitespace. -/
def goTrimSpace (s : String) : String :=
  String.mk (((s.toList.dropWhile goIsSpace).reverse.dropWhile goIsSpace).reverse)

/-- The trim-and-cut step of the node-file read loop (pool.go 151–155):
`strings.TrimSpace`, then cut the line at the first `'#'`
(`strings.Index` / `line[0:idx]` — the byte slice up to the first `'#'`
is exactly the characters before it).  Note the result is not trimmed
again, so whitespace before a `'#'` survives. -/
def stripNodeLine (line : String) : String :=
  let t := goTrimSpace line
  match t.toList.findIdx? (fun c => c = '#') with
  | some idx => String.mk (t.toList.take idx)
  | none => t

/-- One line of the node file as processed by the read loop of
`updateNodeFileWorker` (pool.go 151–158): trim and cut the comment, then
skip the line when its byte length is under 7 (`// At least "1.2.3.4"!`).
A kept line is returned as the backend address. -/
def parseNodeLine (line : String) : Option String :=
  let t := stripNodeLine line
  if t.utf8ByteSize < 7 then none else some t

/-- Go `Pool` (pool.go 37–46).  `backendQueue` is the channel of ready
backend connections; `nodeFileLock` is not represented — the worker pass
below is the critical section it guards. -/
structure PoolState where
  Name : String
  backends : List Backend
  backendQueue : GoChan HttpBackendConnection
  nodeFile : String
  generation : Int
deriving DecidableEq, Repr

/-- The backend-refresh scan of `updateNodeFileWorker` (pool.go 160–173)
for one parsed address: if a backend with this address exists, stamp the
first such backend with `newgen` (`continue LINE`); otherwise append a
fresh `Backend` at generation `newgen`. -/
def refreshOrAppend (newgen : Int) (bs : List Backend) (addr : String) : List Backend :=
  match bs with
  | [] => [{ Ipport := addr, connecting := none, outstanding := 0, generation := newgen }]
  | b :: rest =>
    if b.Ipport = addr then
      { b with generation := newgen } :: rest
    else
      b :: refreshOrAppend newgen rest addr

/-- One pass of `updateNodeFileWorker` over a changed node file
(pool.go 122–174), applied to the file's lines: compute
`newgen := p.generation + 1`, then for each line that `parseNodeLine`
keeps, refresh or append a backend at `newgen`.  Faithfully to the
source, the pass neither assigns `p.generation = newgen` nor removes any
backend from `p.backends` — the reload is marked `TODO: Implement :-)`
at pool.go line 128. -/
def updateNodeFilePass (p : PoolState) (lines : List String) : PoolState :=
  let newgen := p.generation + 1
  let backends := lines.foldl
    (fun bs line =>
      match parseNodeLine line with
      | none => bs
      | some addr => refreshOrAppend newgen bs addr)
    p.backends
  { p with backends := backends }

/-- Go `Pool.GetBackend` (pool.go 204–206): the body is `return nil`. -/
def PoolState.GetBackend (_p : PoolState) : Option HttpBackendConnection :=
  none

/-!
Go path.Clean and path.Join

`CleanPath` (http.go 45–61) resolves the requested URI under the docroot
with `path.Join`, which runs `path.Clean` on the slash-joined string.
`path.Clean` is purely lexical; its documented rules are: collapse
multiple slashes, drop `.` elements, drop each `..` together with the
non-`..` element before it, drop `..` elements at the root of a rooted
path; the empty result becomes `"."`.  The component-stack rendering
below implements exactly those rules. -/

/-- Process the slash-separated components of a path against a stack of
kept components (in reverse order).  `rooted` records whether the path
began with a slash, in which case leading `..` components are dropped;
otherwise they are kept. -/
def cleanComps (rooted : Bool) : List String → List String → List String
  | acc, [] => acc.reverse
  | acc, c :: rest =>
    if c = "" ∨ c = "." then
      cleanComps rooted acc rest
    else if c = ".." then
      match acc with
      | [] =>
        if rooted then cleanComps rooted [] rest
        else cleanComps rooted [".."] rest
      | top :: accRest =>
        if top = ".." then cleanComps rooted (".." :: top :: accRest) rest
        else cleanComps rooted accRest rest
    else
      cleanComps rooted (c :: acc) rest

/-- Go `path.Clean`. -/
def pathClean (p : String) : String :=
  if p = "" then "."
  else
    let rooted := strStartsWith p "/"
    let comps := cleanComps rooted [] (splitChar '/' p)
    let joined := String.intercalate "/" comps
    if rooted then "/" ++ joined
    else if joined = "" then "." else joined

/-- Go `path.Join` on two elements: empty elements contribute nothing;
the result is empty when both are, and otherwise is `path.Clean` of the
slash-joined pair. -/
def pathJoin (a b : String) : String :=
  if a = "" ∧ b = "" then ""
  else if a = "" then pathClean b
  else pathClean (a ++ "/" ++ b)

/-- The result of `CleanPath` (http.go 45–61): `log.Fatal` when the
docroot is unset (process abort), an error when the joined path escapes
the docroot by the `strings.HasPrefix` test, or the cleaned path. -/
inductive CleanPathResult where
  | fatal : CleanPathResult
  | err (msg : String) : CleanPathResult
  | ok (p : String) : CleanPathResult
deriving DecidableEq, Repr

/-- Go `CleanPath` (http.go 45–61): trim the docroot, abort when it is
empty, join it with the trimmed URI, and reject the result unless the
docroot is a string prefix of it. -/
def CleanPath (root uri : String) : CleanPathResult :=
  let root := goTrimSpace root
  if root = "" then .fatal
  else
    let npath := pathJoin root (goTrimSpace uri)
    if strStartsWith npath root then .ok npath
    else .err "URI escaped from root"

/-!
Connections, listeners and services
-/

/-- Outcome of a `Close` call: the error value it returns (`none` for a
nil error). -/
inductive CloseOutcome where
  | ok : CloseOutcome
  | err (msg : String) : CloseOutcome
deriving DecidableEq, Repr

/-- Go `TcpConnection` (conn.go 20–25), restricted to the state its `Close`
path reads and writes.  `flushFails` is the environment's answer to
`BWriter.Flush()`; `flushes` and `socketCloses` count the flushes
attempted and the `Conn.Close()` calls made, so that "touches the socket"
is observable. -/
structure TcpConnectionState where
  alive : Bool
  flushFails : Bool
  flushes : Nat
  socketCloses : Nat
deriving DecidableEq, Repr

/-- Go `TcpConnection.Close` (conn.go 82–93): an already-dead connection
returns the already-closed error without further effect; otherwise the
liveness flag drops, the write buffer is flushed (a flush failure is
logged and the close proceeds), and `Conn.Close()` releases the
socket. -/
def TcpConnectionState.Close (c : TcpConnectionState) :
    TcpConnectionState × CloseOutcome :=
  if c.alive = false then
    (c, .err "TcpConnection already closed")
  else
    ({ c with alive := false, flushes := c.flushes + 1,
              socketCloses := c.socketCloses + 1 }, .ok)

/-- Go `HttpConnection` (http.go 23–28), restricted to what its `Close`
path touches: the call count on the underlying socket's `Close`. -/
structure HttpConnectionState where
  socketCloses : Nat
deriving DecidableEq, Repr

/-- Go `HttpConnection.Close` (http.go 158–160): the body is
`return h.conn.Close()` — no liveness guard, so every call closes the
underlying socket again. -/
def HttpConnectionState.Close (c : HttpConnectionState) :
    HttpConnectionState × CloseOutcome :=
  ({ socketCloses := c.socketCloses + 1 }, .ok)

/-- Go `TcpListener` (listener.go 21–25), as its `Close` sees it. -/
structure TcpListenerState where
  alive : Bool
  ipport : String
  socketClosed : Bool
deriving DecidableEq, Repr

/-- A Go runtime panic relevant to this development. -/
inductive Panic where
  | nilPointerDereference : Panic
deriving DecidableEq, Repr

/-- Go `TcpListener.Close` on a possibly-nil `*TcpListener`
(listener.go 76–81): the first statement evaluates `l.socket.Addr()`, so
a call on a nil receiver dereferences a nil pointer and panics.  On a
live receiver it drops the flag, closes the bound socket and returns
nil. -/
def TcpListenerClose : Option TcpListenerState →
    Except Panic (TcpListenerState × CloseOutcome)
  | none => .error .nilPointerDereference
  | some l => .ok ({ l with alive := false, socketClosed := true }, .ok)

/-- Go `ServiceRole` (service.go 25–31). -/
inductive ServiceRole where
  | ROLE_WEBSERVER : ServiceRole
  | ROLE_PROXY : ServiceRole
  | ROLE_MANAGE : ServiceRole
deriving DecidableEq, Repr

/-- Go `ServiceRequest` (service.go 35–39): the client connection, the
parsed request and the private response channel, each modelled as a
handle since the dispatch path only moves them around. -/
structure ServiceRequest where
  client : Nat
  request : Nat
  rchan : Nat
deriving DecidableEq, Repr

/-- Go `ServiceListener` (service.go 41–44): the bound listener (nil until
`Enable` binds it).  The `Acceptor` function value is not represented;
no claim inspects it. -/
structure ServiceListener where
  Listener : Option TcpListenerState
deriving DecidableEq, Repr

/-- Go `Service` (service.go 46–59).  `Listeners` is the
`map[string]*ServiceListener`, modelled as an association list whose
values are nilable pointers.  `requestQueue` is the
`chan ServiceRequest` field; no `make` for it appears anywhere in the
program, so it only ever holds its zero value `GoChan.nil`. -/
structure Service where
  Name : String
  Enabled : Bool
  Role : ServiceRole
  Listeners : List (String × Option ServiceListener)
  DocRoot : String
  Pool : Option PoolState
  requestQueue : GoChan ServiceRequest
deriving DecidableEq, Repr

/-- The process-wide registries `services` (service.go 62) and `pools`
(pool.go 49).  Each is guarded by its own dedicated lock
(`serviceLock`, `poolLock`); the configuration path that calls the
constructors is sequential, so the locks are not represented. -/
structure Registries where
  services : List (String × Service)
  pools : List (String × PoolState)
deriving DecidableEq, Repr

/-- Go `NewService` (service.go 84–102): fail when the name is taken,
leaving the registry as it is; otherwise register a fresh disabled
web-server-role service and start its `requestPump` goroutine.  The
struct literal gives no `requestQueue`, and no `make(chan
ServiceRequest)` appears anywhere in the program, so the new service's
queue is the zero value: the nil channel. -/
def NewService (r : Registries) (name : String) :
    Registries × Except String Service :=
  if (r.services.lookup name).isSome then
    (r, .error ("service '" ++ name ++ "' already exists"))
  else
    let s : Service := {
      Name := name
      Enabled := false
      Role := .ROLE_WEBSERVER
      Listeners := []
      DocRoot := ""
      Pool := none
      requestQueue := GoChan.nil }
    ({ r with services := (name, s) :: r.services }, .ok s)

/-- Go `NewPool` (pool.go 79–102): fail when the name is taken, leaving the
registry as it is; otherwise register a fresh pool whose
`backendQueue` is allocated with capacity 1000, and start its
`updateNodeFileWorker` goroutine. -/
def NewPool (r : Registries) (name : String) :
    Registries × Except String PoolState :=
  if (r.pools.lookup name).isSome then
    (r, .error ("pool '" ++ name ++ "' already exists"))
  else
    let p : PoolState := {
      Name := name
      backends := []
      backendQueue := .alloc 1000 []
      nodeFile := ""
      generation := 0 }
    ({ r with pools := (name, p) :: r.pools }, .ok p)

/-- Go `Service.HandleRequest` (service.go 281–296): the entire body is the
send `s.requestQueue <- ServiceRequest{...}` followed by `return nil`,
so the call returns exactly when the send completes.  The result is
`none` when the send cannot complete by itself — forever, for the nil
channel (Go specification), and until a receiver frees a slot, for a
full buffer — and otherwise the service with the request enqueued
together with the returned error, which is always nil. -/
def HandleRequest (s : Service) (req : ServiceRequest) :
    Option (Service × Option String) :=
  match s.requestQueue with
  | .nil => none
  | .alloc capacity buf =>
    if buf.length < capacity then
      some ({ s with requestQueue := .alloc capacity (buf ++ [req]) }, none)
    else
      none

/-- Observable effects of one run of the `requestPump` goroutine over a
queue currently holding a given list of requests: how many requests it
dequeued, how many `go s.serveFile(req)` tasks it spawned, how many
error responses it wrote, and whether the goroutine executed `return`
(rather than blocking on an empty queue). -/
structure PumpRun where
  consumed : Nat
  serveFileTasks : Nat
  errorResponses : Nat
  returned : Bool
deriving DecidableEq, Repr

/-- Go `Service.requestPump` (service.go 149–170) applied to the requests
currently in the queue.  On an empty queue the pump blocks in the
receive.  After dequeuing a request: for `ROLE_WEBSERVER` it spawns
`go s.serveFile(req)` and then executes `return` (service.go 157–158);
for a role that is neither webserver nor proxy it writes an error
response and executes `return` (159–164); for `ROLE_PROXY` it calls
`s.Pool.GetBackend()` and the loop continues (166–169). -/
def requestPumpRun (role : ServiceRole) : List ServiceRequest → PumpRun
  | [] => { consumed := 0, serveFileTasks := 0, errorResponses := 0,
            returned := false }
  | _ :: rest =>
    match role with
    | .ROLE_WEBSERVER =>
      { consumed := 1, serveFileTasks := 1, errorResponses := 0,
        returned := true }
    | .ROLE_MANAGE =>
      { consumed := 1, serveFileTasks := 0, errorResponses := 1,
        returned := true }
    | .ROLE_PROXY =>
      let r := requestPumpRun .ROLE_PROXY rest
      { consumed := r.consumed + 1, serveFileTasks := r.serveFileTasks,
        errorResponses := r.errorResponses, returned := r.returned }

/-- Go `Service.Enable` (service.go 174–191), with the environment's answer
to `ListenTcp` for each address given by `bindOk`: every listener entry
whose `Listener` field is still nil gets bound (a bind failure is
logged and the entry stays unbound); already-bound entries are left
alone; the service is then marked enabled — also when some or all binds
failed.  The loop reads `lstnr.Listener` with no nil check on `lstnr`,
so a nil map value would panic; in the program `setListen` only stores
non-nil values. -/
def ServiceEnable (bindOk : String → Bool) (s : Service) :
    Except Panic Service := do
  let listeners ← s.Listeners.mapM (fun e =>
    match e.2 with
    | none => Except.error Panic.nilPointerDereference
    | some sl =>
      match sl.Listener with
      | some _ => Except.ok e
      | none =>
        if bindOk e.1 then
          let t : TcpListenerState :=
            { alive := true, ipport := e.1, socketClosed := false }
          Except.ok (e.1, some ({ Listener := some t } : ServiceListener))
        else
          Except.ok e)
  Except.ok { s with Listeners := listeners, Enabled := true }

/-- Go `Service.setListen` (service.go 194–221), reached from
`Service.Set "listen"` (service.go 241–242): close every existing
listener entry — the guard `lstnr != nil` (service.go 202) tests the
map value pointer, not the `Listener` field, so an entry whose listener
was never bound reaches `lstnr.Listener.Close()` on a nil receiver —
then replace the map with a fresh unbound entry per comma-separated
trimmed address, and re-run `Enable` when the service is already
enabled. -/
def setListen (bindOk : String → Bool) (s : Service) (value : String) :
    Except Panic Service := do
  let _ ← s.Listeners.mapM (fun e =>
    match e.2 with
    | none => Except.ok ()
    | some sl => do
      let _ ← TcpListenerClose sl.Listener
      Except.ok ())
  let entries := (splitChar ',' value).map
    (fun ip => (goTrimSpace ip, some ({ Listener := none } : ServiceListener)))
  let s := { s with Listeners := entries }
  if s.Enabled then ServiceEnable bindOk s else Except.ok s

/-- The state of the two registries at process start: both maps empty. -/
def emptyRegistries : Registries :=
  { services := [], pools := [] }

/-!
Theorems settling the claims
-/

/-- C1: the claim says every request accepted by `HandleRequest` returns
ok after enqueuing and gets exactly one eventual response on its private
channel.  On the code this fails before it can start: the struct literal
in `NewService` omits `requestQueue` and no `make(chan ServiceRequest)`
exists anywhere in the program, so every service's queue is the nil
channel; a send on a nil channel blocks forever, hence `HandleRequest`
never returns at all (let alone ok) and no response is ever produced. -/
theorem C1_handleRequest_never_returns (r : Registries) (name : String)
    (s : Service) (h : (NewService r name).2 = .ok s) :
    s.requestQueue = GoChan.nil ∧
    GoChan.sendMayComplete s.requestQueue = false ∧
    ∀ req, HandleRequest s req = none := by
  unfold NewService at h
  split at h
  · simp at h
  · simp only at h
    injection h with h'
    subst h'
    exact ⟨rfl, rfl, fun _ => rfl⟩

/-- Witness for C1 at the concrete service created by
`NewService emptyRegistries "a"`. -/
theorem C1_handleRequest_never_returns_witness :
    HandleRequest
      { Name := "a", Enabled := false, Role := .ROLE_WEBSERVER,
        Listeners := [], DocRoot := "", Pool := none,
        requestQueue := GoChan.nil }
      { client := 0, request := 0, rchan := 0 } = none :=
  (C1_handleRequest_never_returns emptyRegistries "a"
    { Name := "a", Enabled := false, Role := .ROLE_WEBSERVER,
      Listeners := [], DocRoot := "", Pool := none,
      requestQueue := GoChan.nil }
    (by rfl)).2.2 { client := 0, request := 0, rchan := 0 }

/-- C2: the claim says `Pool.GetBackend` returns a usable backend
connection or a typed no-backend failure and never a silent nil.  The
body of `GetBackend` is `return nil`: every call on every pool returns
nil with no error value. -/
theorem C2_getBackend_always_silent_nil (p : PoolState) :
    p.GetBackend = none :=
  rfl

/-- C3: the claim says a reconciliation pass leaves every backend at the
pool's current generation, bumps the pool generation strictly
monotonically on each changed pass, and removes backends older than the
new generation.  On the code none of this holds: `p.generation` is never
assigned (so it stays 0 and every pass recomputes `newgen = 1`), and no
backend is ever removed.  Concretely, after a first pass over a file
listing 1.2.3.4:80 and a second pass over a file listing only
5.6.7.8:80, the stale backend 1.2.3.4:80 is still present, both
backends carry generation 1, and the pool's generation is still 0. -/
theorem C3_reconciliation_pass_is_unfinished :
    (updateNodeFilePass
      { Name := "p", backends := [], backendQueue := .alloc 1000 [],
        nodeFile := "nodes", generation := 0 } ["1.2.3.4:80"]).generation = 0 ∧
    (updateNodeFilePass (updateNodeFilePass
      { Name := "p", backends := [], backendQueue := .alloc 1000 [],
        nodeFile := "nodes", generation := 0 } ["1.2.3.4:80"])
      ["5.6.7.8:80"]).backends.map Backend.Ipport
      = ["1.2.3.4:80", "5.6.7.8:80"] ∧
    (updateNodeFilePass (updateNodeFilePass
      { Name := "p", backends := [], backendQueue := .alloc 1000 [],
        nodeFile := "nodes", generation := 0 } ["1.2.3.4:80"])
      ["5.6.7.8:80"]).backends.map Backend.generation = [1, 1] ∧
    (updateNodeFilePass (updateNodeFilePass
      { Name := "p", backends := [], backendQueue := .alloc 1000 [],
        nodeFile := "nodes", generation := 0 } ["1.2.3.4:80"])
      ["5.6.7.8:80"]).generation = 0 := by
  decide

/-- C4: the claim says the webserver-role dispatch loop spawns file
serving on a fresh task, continues immediately, and never terminates
after handling a request.  The code spawns `go s.serveFile(req)` and then
executes `return` (service.go 157–158): with two requests queued, the
pump consumes only the first, spawns one serveFile task, and the
goroutine returns — the second request is never dequeued. -/
theorem C4_webserver_pump_returns_after_first_request :
    requestPumpRun .ROLE_WEBSERVER
      [{ client := 1, request := 10, rchan := 100 },
       { client := 1, request := 11, rchan := 101 }]
      = { consumed := 1, serveFileTasks := 1, errorResponses := 0,
          returned := true } := by
  decide

/-- C5: the claim says two concurrent `Backend.Connect` calls result in
exactly one underlying dial attempt, the mutex making the second a
no-op.  In the code the dial (`MakeHttpBackend`, pool.go line 67) is
commented out and `connecting` is never assigned, so a `Connect` call —
first, second, concurrent or not — initiates zero dial attempts and
leaves the backend unchanged; since no branch of the function dials,
every interleaving of two calls performs zero dials, not one. -/
theorem C5_connect_never_dials (b : Backend) :
    b.Connect = (b, 0) ∧ b.Connect.1.Connect = (b, 0) := by
  unfold Backend.Connect
  simp

/-- C6 counterexample: the claim says "10.0.0.1:8080 # comment" parses
to exactly "10.0.0.1:8080"; the code cuts at '#' after trimming and
never re-trims, so the parsed address keeps the trailing space. -/
theorem C6_counterexample_trailing_space :
    parseNodeLine "10.0.0.1:8080 # comment" = some "10.0.0.1:8080 " ∧
    parseNodeLine "10.0.0.1:8080 # comment" ≠ some "10.0.0.1:8080" := by
  decide

/-- C6 as amended: the portion from `'#'` on is stripped after the line
is trimmed, and the result is not re-trimmed, so
"10.0.0.1:8080 # comment" parses to "10.0.0.1:8080 " with the space
before the comment retained; a blank line and a pure-comment line are
skipped; a stripped line shorter than 7 bytes is skipped; every stripped
line of at least 7 bytes is taken as an address verbatim. -/
theorem C6_amended_node_line_parsing :
    (parseNodeLine "10.0.0.1:8080 # comment" = some "10.0.0.1:8080 " ∧
     parseNodeLine "" = none ∧
     parseNodeLine "   " = none ∧
     parseNodeLine "# only a comment" = none ∧
     parseNodeLine "  # indented comment" = none ∧
     parseNodeLine "1.2.3." = none ∧
     parseNodeLine "10.0.0.1:8080" = some "10.0.0.1:8080") ∧
    (∀ line, (stripNodeLine line).utf8ByteSize < 7 →
       parseNodeLine line = none) ∧
    (∀ line, 7 ≤ (stripNodeLine line).utf8ByteSize →
       parseNodeLine line = some (stripNodeLine line)) := by
  refine ⟨by decide, ?_, ?_⟩
  · intro line h
    simp [parseNodeLine, if_pos h]
  · intro line h
    simp [parseNodeLine, if_neg (Nat.not_lt.mpr h)]

/-- Witness for the amended C6 at a concrete line kept as an address. -/
theorem C6_amended_node_line_parsing_witness :
    parseNodeLine "10.0.0.1:8080" = some (stripNodeLine "10.0.0.1:8080") :=
  C6_amended_node_line_parsing.2.2 "10.0.0.1:8080" (by decide)

/-- C7: whenever `CleanPath` succeeds, the only guarantee is that the
trimmed docroot is a string prefix of the returned path — and the string
test does not confine the path to the docroot directory: docroot
"/srv/www" with URI "/../www-secret/x" succeeds with
"/srv/www-secret/x", which has "/srv/www" as a string prefix but lies
outside the directory (it is neither the docroot itself nor under
"/srv/www/"). -/
theorem C7_cleanPath_prefix_guard_is_string_only :
    (∀ root uri p, CleanPath root uri = .ok p →
       strStartsWith p (goTrimSpace root) = true) ∧
    (CleanPath "/srv/www" "/../www-secret/x" = .ok "/srv/www-secret/x" ∧
     strStartsWith "/srv/www-secret/x" "/srv/www" = true ∧
     strStartsWith "/srv/www-secret/x" "/srv/www/" = false ∧
     "/srv/www-secret/x" ≠ "/srv/www") := by
  constructor
  · intro root uri p h
    simp only [CleanPath] at h
    split at h
    · simp at h
    · split at h
      next hpre =>
        injection h with h'
        subst h'
        exact hpre
      next => simp at h
  · decide

/-- Witness for C7 at the concrete escaping input. -/
theorem C7_cleanPath_prefix_guard_witness :
    strStartsWith "/srv/www-secret/x" (goTrimSpace "/srv/www") = true :=
  C7_cleanPath_prefix_guard_is_string_only.1 "/srv/www" "/../www-secret/x"
    "/srv/www-secret/x" (by decide)

/-- C8 counterexample: the claim quantifies over every Connection, but
`HttpConnection.Close` has no liveness guard — its body is
`return h.conn.Close()` — so closing an HttpConnection twice closes the
underlying socket twice and the second call does not return an
already-closed error. -/
theorem C8_counterexample_http_close_unguarded :
    ((HttpConnectionState.Close
        (HttpConnectionState.Close { socketCloses := 0 }).1).1).socketCloses = 2 ∧
    (HttpConnectionState.Close
        (HttpConnectionState.Close { socketCloses := 0 }).1).2
      = CloseOutcome.ok := by
  decide

/-- C8 as amended: for a TcpConnection the claim holds — closing twice
returns the already-closed error on the second call, the socket is
released exactly once, the first close flushes the write buffer, and a
flush failure (the statement covers both values of `flushFails`) does
not prevent the socket close — but `HttpConnection.Close` has no such
guard and releases the underlying socket on every call. -/
theorem C8_amended_tcp_close_idempotent (c : TcpConnectionState)
    (h : c.alive = true) :
    (c.Close).2 = .ok ∧
    (c.Close).1.socketCloses = c.socketCloses + 1 ∧
    (c.Close).1.flushes = c.flushes + 1 ∧
    ((c.Close).1.Close).2 = .err "TcpConnection already closed" ∧
    ((c.Close).1.Close).1 = (c.Close).1 := by
  simp [TcpConnectionState.Close, h]

/-- Witness for the amended C8 at a concrete live connection whose
flush fails. -/
theorem C8_amended_tcp_close_idempotent_witness :
    ((({ alive := true, flushFails := true, flushes := 0,
         socketCloses := 0 } : TcpConnectionState).Close).1.Close).2
      = .err "TcpConnection already closed" :=
  (C8_amended_tcp_close_idempotent
    { alive := true, flushFails := true, flushes := 0, socketCloses := 0 }
    rfl).2.2.2.1

/-- C9: creating a second service (or pool) with a taken name fails with
the duplicate-name error and leaves the registry — hence the original
registered object — untouched, and the two registries are independent:
after service "a" is created, pool "a" is still created successfully
while service "a" remains registered. -/
theorem C9_registries_unique_and_independent :
    (∀ r name, (r.services.lookup name).isSome = true →
       (NewService r name).2
          = .error ("service '" ++ name ++ "' already exists") ∧
       (NewService r name).1 = r) ∧
    (∀ r name, (r.pools.lookup name).isSome = true →
       (NewPool r name).2
          = .error ("pool '" ++ name ++ "' already exists") ∧
       (NewPool r name).1 = r) ∧
    (∃ s p,
       (NewService emptyRegistries "a").2 = .ok s ∧
       (NewPool (NewService emptyRegistries "a").1 "a").2 = .ok p ∧
       ((NewPool (NewService emptyRegistries "a").1 "a").1).services.lookup "a"
          = some s) := by
  refine ⟨?_, ?_, ?_⟩
  · intro r name h
    simp [NewService, h]
  · intro r name h
    simp [NewPool, h]
  · exact ⟨_, _, rfl, rfl, rfl⟩

/-- Witness for C9: the second `CreateService "a"` fails with the
duplicate-name error and leaves the registry unchanged. -/
theorem C9_registries_unique_and_independent_witness :
    (NewService (NewService emptyRegistries "a").1 "a").2
        = .error ("service '" ++ "a" ++ "' already exists") ∧
    (NewService (NewService emptyRegistries "a").1 "a").1
        = (NewService emptyRegistries "a").1 :=
  C9_registries_unique_and_independent.1
    (NewService emptyRegistries "a").1 "a" (by rfl)

/-- C10: the claim says a second `Set("listen", ...)` while the
previously configured listeners are still unbound completes without a
nil-pointer dereference because only bound listeners are closed.  The
guard in `setListen` tests the map value (`lstnr != nil`), which is
always non-nil, not the `Listener` field, so the close loop calls
`TcpListener.Close` on a nil receiver, which dereferences `l.socket` and
panics: configuring "1.2.3.4:80" on a fresh (never enabled) service and
then re-configuring "5.6.7.8:80" panics with a nil dereference. -/
theorem C10_setListen_rebind_nil_dereference :
    ∃ s0 s1,
      (NewService emptyRegistries "web").2 = .ok s0 ∧
      setListen (fun _ => true) s0 "1.2.3.4:80" = .ok s1 ∧
      s1.Listeners = [("1.2.3.4:80", some { Listener := none })] ∧
      setListen (fun _ => true) s1 "5.6.7.8:80"
        = .error .nilPointerDereference := by
  exact ⟨_, _, rfl, rfl, rfl, rfl⟩

end Gobal
